import Mathlib

/-!
Verification of the turn-orchestration engine of the aura voice-assistant
repository. The definitions below are a shallow embedding of the Python
sources under `app/`: the orchestrator (`app/agents/agent.py`), the
deterministic customer-context agent (`app/agents/customer_context_agent.py`),
the response templates (`app/utils/response_templates.py`), the conversation
memory tool (`app/tools/conversation_memory.py`) and the write agent
(`app/agents/write_agent.py`). External collaborators (Firestore, BigQuery,
the LLM capabilities, `json.loads`) are modelled as oracle parameters, and
Python's dynamically typed values as the inductive `PyVal`.
-/

/-- Dynamically typed Python value, restricted to the shapes the embedded
code actually handles: strings, booleans, integers, `None`, lists and
string-keyed dicts (modelled as association lists, first binding wins,
matching insertion-ordered Python dicts built once). -/
inductive PyVal where
  | pstr (s : String)
  | pbool (b : Bool)
  | pint (n : Int)
  | pnone
  | plist (l : List PyVal)
  | pdict (d : List (String × PyVal))

/-- Exceptions that the embedded code can raise and catch. The textual
payload of a Python exception is abstracted by `pyErrStr` below. -/
inductive PyError where
  | attributeError
  | typeError
deriving DecidableEq, Repr

/-- Abstraction of `str(e)` for the modelled exceptions. -/
def pyErrStr : PyError → String
  | .attributeError => "object has no attribute \x27get\x27"
  | .typeError => "unsupported operand type"

/-- Python truthiness (`bool(v)`) for the modelled value shapes. -/
def pyTruthy : PyVal → Bool
  | .pstr s => !s.isEmpty
  | .pbool b => b
  | .pint n => n != 0
  | .pnone => false
  | .plist l => !l.isEmpty
  | .pdict d => !d.isEmpty

/-- `isinstance(v, dict)`. -/
def PyVal.isDict : PyVal → Bool
  | .pdict _ => true
  | _ => false

/-- Python `v == "s"` for a string literal on the right: values of another
type never compare equal to a string. -/
def pyIsStr (v : PyVal) (s : String) : Bool :=
  match v with
  | .pstr t => t == s
  | _ => false

/-- `d.get(k, dflt)` on an association-list dict. -/
def dictGet (d : List (String × PyVal)) (k : String) (dflt : PyVal) : PyVal :=
  match d.find? (fun p => p.1 == k) with
  | some p => p.2
  | none => dflt

/-- `v.get(k, dflt)` guarded by the dict check; used only at places where the
embedded code has already established that `v` is a dict. -/
def dictGetD (v : PyVal) (k : String) (dflt : PyVal) : PyVal :=
  match v with
  | .pdict d => dictGet d k dflt
  | _ => dflt

/-- `v.get(k, dflt)` as Python executes it: an `AttributeError` is raised
when `v` is not a dict. -/
def pyGetE (v : PyVal) (k : String) (dflt : PyVal) : Except PyError PyVal :=
  match v with
  | .pdict d => .ok (dictGet d k dflt)
  | _ => .error .attributeError

/-- Python `a or b`. -/
def pyOr (a b : PyVal) : PyVal := if pyTruthy a then a else b

/-- `int(v)` for the modelled shapes (`int(True) = 1`; string parsing does
not model Python's surrounding-whitespace stripping, which no claim needs). -/
def pyToInt : PyVal → Option Int
  | .pint n => some n
  | .pbool b => some (if b then 1 else 0)
  | .pstr s => s.toInt?
  | _ => none

/-- Python `repr(v)`. String escaping inside nested containers is not
reproduced (no embedded string contains a quote). -/
def pyRepr : PyVal → String
  | .pstr s => "\x27" ++ s ++ "\x27"
  | .pbool b => if b then "True" else "False"
  | .pint n => toString n
  | .pnone => "None"
  | .plist l => "[" ++ String.intercalate ", " (l.attach.map (fun x => pyRepr x.1)) ++ "]"
  | .pdict d => "\x7b" ++ String.intercalate ", "
      (d.attach.map (fun x => "\x27" ++ x.1.1 ++ "\x27: " ++ pyRepr x.1.2)) ++ "\x7d"
decreasing_by
  all_goals simp_wf
  · have := List.sizeOf_lt_of_mem x.2
    omega
  · obtain ⟨⟨a, b⟩, hx⟩ := x
    have h1 := List.sizeOf_lt_of_mem hx
    simp only [Prod.mk.sizeOf_spec] at h1 ⊢
    omega

/-- Python `str(v)` (identity on strings, `repr` otherwise). -/
def pyToString : PyVal → String
  | .pstr s => s
  | v => pyRepr v

/-- Python `v > n` against an int; non-numeric operands raise `TypeError`. -/
def pyGtInt (v : PyVal) (n : Int) : Except PyError Bool :=
  match v with
  | .pint m => .ok (n < m)
  | .pbool b => .ok (n < (if b then (1 : Int) else 0))
  | _ => .error .typeError

/-- Python `sep.join(v)`: works on a list of strings (or on a string, taken
character by character); anything else raises `TypeError`. -/
def pyJoin (sep : String) (v : PyVal) : Except PyError String :=
  match v with
  | .plist l =>
    match l.mapM (fun x => match x with | .pstr s => some s | _ => none) with
    | some ss => .ok (String.intercalate sep ss)
    | none => .error .typeError
  | .pstr s => .ok (String.intercalate sep (s.data.map (fun c => String.mk [c])))
  | _ => .error .typeError

/-! ## `app/tools/conversation_memory.py` -/

/-- `MAX_STORED_INTERACTIONS` in `conversation_memory.py`. -/
def MAX_STORED_INTERACTIONS : Nat := 20

/-- One stored interaction record, with exactly the fields written by
`save_conversation` (the optional `metadata` entry is not exercised by any
caller in the repository and is omitted). -/
structure Interaction where
  timestamp : String
  session_id : String
  query : String
  response : String
  topic : String
  sentiment : String
  was_escalated : Bool
  escalation_reason : Option String
  resolution_status : String
deriving DecidableEq

/-- One per-customer Firestore document of the `conversation_history`
collection, with the fields `save_conversation` reads and writes. -/
structure HistoryDoc where
  user_id : String
  created_at : String
  last_updated : String
  interactions : List Interaction
  unresolved_issues : List String
  total_interactions : Nat
deriving DecidableEq

/-- The sentiment scores dict of `_calculate_sentiment_trend`
(`scores.get(s, 0)`: unrecognised sentiment strings score 0). -/
def sentimentScore (s : String) : Int :=
  if s = "positive" then 2
  else if s = "neutral" then 1
  else if s = "negative" then -1
  else if s = "frustrated" then -2
  else 0

/-- `_calculate_sentiment_trend` from `conversation_memory.py`: fewer than 2
interactions give "unknown"; otherwise the last 5 sentiments are scored,
and with at least 3 scores the first-half/second-half sums decide between
"improving", "declining" and "stable". -/
def calculateSentimentTrend (interactions : List Interaction) : String :=
  if interactions.length < 2 then "unknown"
  else
    let recentScores :=
      (interactions.drop (interactions.length - 5)).map (fun i => sentimentScore i.sentiment)
    if 3 ≤ recentScores.length then
      let firstHalf := (recentScores.take (recentScores.length / 2)).sum
      let secondHalf := (recentScores.drop (recentScores.length / 2)).sum
      if firstHalf + 1 < secondHalf then "improving"
      else if secondHalf < firstHalf - 1 then "declining"
      else "stable"
    else "stable"

/-- The interaction record built at the top of `save_conversation`: the query
is truncated to 500 characters and the response to 1000. -/
def mkInteraction (now sessionId query response topic sentiment : String)
    (wasEscalated : Bool) (escalationReason : Option String)
    (resolutionStatus : String) : Interaction :=
  { timestamp := now
    session_id := sessionId
    query := query.take 500
    response := response.take 1000
    topic := topic
    sentiment := sentiment
    was_escalated := wasEscalated
    escalation_reason := escalationReason
    resolution_status := resolutionStatus }

/-- `save_conversation` from `conversation_memory.py`, acting on the target
customer's document (`none` models a document that does not exist yet).
`now` stands for `datetime.now(timezone.utc).isoformat()`. -/
def saveConversation (now : String) (doc : Option HistoryDoc)
    (userId sessionId query response topic sentiment : String)
    (wasEscalated : Bool) (escalationReason : Option String)
    (resolutionStatus : String) : HistoryDoc :=
  let interaction :=
    mkInteraction now sessionId query response topic sentiment
      wasEscalated escalationReason resolutionStatus
  match doc with
  | some d =>
    let interactions := d.interactions ++ [interaction]
    let interactions :=
      if MAX_STORED_INTERACTIONS < interactions.length then
        interactions.drop (interactions.length - MAX_STORED_INTERACTIONS)
      else interactions
    let unresolved :=
      if resolutionStatus = "pending" ∧ ¬ topic ∈ d.unresolved_issues then
        d.unresolved_issues ++ [topic]
      else if resolutionStatus = "resolved" ∧ topic ∈ d.unresolved_issues then
        d.unresolved_issues.erase topic
      else d.unresolved_issues
    { d with
      interactions := interactions
      unresolved_issues := unresolved
      last_updated := now
      total_interactions := interactions.length }
  | none =>
    { user_id := userId
      created_at := now
      last_updated := now
      interactions := [interaction]
      unresolved_issues := if resolutionStatus = "pending" then [topic] else []
      total_interactions := 1 }

/-! ## `app/agents/customer_context_agent.py` -/

/-- `MAX_RETRIES` in `customer_context_agent.py`. -/
def MAX_RETRIES : Nat := 2

/-- Outcome of one attempted call to an external store wrapper
(`fetch_customer` / `fetch_limits` / `fetch_conversation_history`): either
the call raised, or it returned some Python value. -/
inductive FetchOutcome where
  | raised
  | returned (v : PyVal)

/-- The three store oracles of a context-agent run, indexed by attempt
number. Indexing by attempt (rather than by queried id) fixes the sequence
of responses the external stores produce for the successive calls of one
run, which is all the agent observes. -/
structure StoreOracles where
  profile : Nat → FetchOutcome
  limits : Nat → FetchOutcome
  history : Nat → FetchOutcome

/-- The success check applied to each store response:
`r and isinstance(r, dict) and r.get("success")`. -/
def fetchOk (v : PyVal) : Bool :=
  pyTruthy v && v.isDict && pyTruthy (dictGetD v "success" .pnone)

/-- STEP 1 retry loop of `ContextAgent._run_async_impl`. On a successful
response it extracts `customer` (default `{}`) and replaces the id with
`r.get("customer_id") or user_id`; the `user_data.get('name')` access in the
success log line raises inside the loop's `try` when the extracted value is
not a dict, so in that case the loop retries while keeping the assignments
already made. Returns the final `user_data` (if ever assigned) and id. -/
def profileLoop (oracle : Nat → FetchOutcome) :
    Nat → Nat → PyVal → Option PyVal → Option PyVal × PyVal
  | _, 0, uid, ud => (ud, uid)
  | attempt, n + 1, uid, ud =>
    match oracle attempt with
    | .raised => profileLoop oracle (attempt + 1) n uid ud
    | .returned v =>
      if fetchOk v then
        let ud' := dictGetD v "customer" (.pdict [])
        let uid' := pyOr (dictGetD v "customer_id" .pnone) uid
        if ud'.isDict then (some ud', uid')
        else profileLoop oracle (attempt + 1) n uid' (some ud')
      else profileLoop oracle (attempt + 1) n uid ud

/-- STEP 2 retry loop: on the first successful response, extract
`limits_result.get("limits", {})` and stop. -/
def limitsLoop (oracle : Nat → FetchOutcome) : Nat → Nat → Option PyVal
  | _, 0 => none
  | attempt, n + 1 =>
    match oracle attempt with
    | .raised => limitsLoop oracle (attempt + 1) n
    | .returned v =>
      if fetchOk v then some (dictGetD v "limits" (.pdict []))
      else limitsLoop oracle (attempt + 1) n

/-- STEP 3 retry loop: on the first successful response, keep the whole
returned dict as `history_data` and stop. -/
def historyLoop (oracle : Nat → FetchOutcome) : Nat → Nat → Option PyVal
  | _, 0 => none
  | attempt, n + 1 =>
    match oracle attempt with
    | .raised => historyLoop oracle (attempt + 1) n
    | .returned v =>
      if fetchOk v then some v
      else historyLoop oracle (attempt + 1) n

/-- Output schema `ContextResult` of the context agent. Field values keep
the dynamic `PyVal` type of the session-state dictionaries they are read
from; `.pnone` is pydantic's `None` default. -/
structure ContextResult where
  user_found : Bool
  user_id : PyVal := .pnone
  user_name : PyVal := .pnone
  user_tier : PyVal := .pnone
  item_1_sum : PyVal := .pnone
  item_2_sum : PyVal := .pnone
  standard_excess : PyVal := .pnone
  extra_excess : PyVal := .pnone
  add_ons : PyVal := .pnone
  special_conditions : PyVal := .pnone
  tier_limits : PyVal := .pnone
  has_previous_interactions : PyVal := .pbool false
  total_previous_calls : PyVal := .pint 0
  last_topic : PyVal := .pnone
  last_interaction_date : PyVal := .pnone
  unresolved_issues : PyVal := .pnone
  sentiment_trend : PyVal := .pnone
  conversation_summary : PyVal := .pnone
  summary : String

/-- Python `f"{n:,}"`: digit grouping by thousands, used by
`_build_summary`. `chunk3` groups a reversed digit list three at a time. -/
def chunk3 : List Char → List (List Char)
  | [] => []
  | [a] => [[a]]
  | [a, b] => [[a, b]]
  | a :: b :: c :: rest => [a, b, c] :: chunk3 rest

/-- `f"{m:,}"` for a natural number. -/
def commaFmtNat (m : Nat) : String :=
  ⟨List.intercalate [','] (((chunk3 (toString m).data.reverse).map List.reverse).reverse)⟩

/-- `f"{n:,}"` for an integer. -/
def commaFmt (n : Int) : String :=
  if n < 0 then "-" ++ commaFmtNat n.natAbs else commaFmtNat n.natAbs

/-- The body of `_build_summary` up to its outer `except`: any raise inside
(dynamic attribute access, int comparison, join) escapes as an error. The
two `int(...)` coercions catch `ValueError`/`TypeError` themselves and
degrade to 0, exactly as in the source. -/
def buildSummaryE (user limits history : PyVal) : Except PyError String := do
  let user := pyOr user (.pdict [])
  let _limits := pyOr limits (.pdict [])
  let history := pyOr history (.pdict [])
  let name ← pyGetE user "name" (.pstr "User")
  let tier ← pyGetE user "tier" (.pstr "Standard")
  let item1v ← pyGetE user "item_1_sum" (.pint 0)
  let extrav ← pyGetE user "extra_excess" (.pint 0)
  let item1 : Int := if pyTruthy item1v then (pyToInt item1v).getD 0 else 0
  let extra : Int := if pyTruthy extrav then (pyToInt extrav).getD 0 else 0
  let parts := [pyToString name ++ " is a " ++ pyToString tier ++ " tier user"]
  let parts := if item1 ≠ 0 then parts ++ ["with $" ++ commaFmt item1 ++ " item_1 cover"] else parts
  let parts := if extra ≠ 0 then parts ++ ["Extra excess: $" ++ commaFmt extra] else parts
  let hasHist ←
    if pyTruthy history then do
      let hh ← pyGetE history "has_history" .pnone
      pure (pyTruthy hh)
    else pure false
  let parts ←
    if hasHist then do
      let totalCalls ← pyGetE history "total_calls" (.pint 0)
      let lastTopic ← pyGetE history "last_topic" .pnone
      let sentiment ← pyGetE history "sentiment_trend" .pnone
      let unresolved ← pyGetE history "unresolved_issues" (.plist [])
      let gt ← pyGtInt totalCalls 1
      let parts := if gt then
          parts ++ ["Returning user (" ++ pyToString totalCalls ++ " previous calls)"]
        else parts
      let parts := if pyTruthy lastTopic then
          parts ++ ["Last discussed: " ++ pyToString lastTopic]
        else parts
      let parts ←
        if pyTruthy unresolved then do
          let joined ← pyJoin ", " unresolved
          pure (parts ++ ["Unresolved issues: " ++ joined])
        else pure parts
      let parts := if pyIsStr sentiment "declining" then
          parts ++ ["Sentiment declining - handle with care"]
        else parts
      pure parts
    else
      pure (parts ++ ["This appears to be their first call"])
  return String.intercalate ". " parts ++ "."

/-- `_build_summary` with its outer `except` and the nested fallback that
still tries `user.get("name", "User")`. -/
def buildSummary (user limits history : PyVal) : String :=
  match buildSummaryE user limits history with
  | .ok s => s
  | .error _ =>
    match (if pyTruthy user then pyGetE user "name" (.pstr "User") else .ok (.pstr "User")) with
    | .ok n => pyToString n ++ " - context available but summary generation failed"
    | .error _ => "User context available but summary generation failed"

/-- The early-exit result of the agent when no user record was obtained
(`result.summary = "User not found in database"`; every other field keeps
its pydantic default). -/
def notFoundResult : ContextResult :=
  { user_found := false, summary := "User not found in database" }

/-- The fallback result built in the agent's outermost `except` handler:
`ContextResult(user_found=False, summary=f"Error fetching user context:
{str(e)[:100]}")`. -/
def errorResult (e : PyError) : ContextResult :=
  { user_found := false
    summary := "Error fetching user context: " ++ (pyErrStr e).take 100 }

/-- STEP 4 of the agent: the `ContextResult` built after a user record was
obtained. -/
def foundResult (userData uid userTier : PyVal)
    (tierLimits history : Option PyVal) : ContextResult :=
  { user_found := true
    user_id := uid
    user_name := dictGetD userData "name" .pnone
    user_tier := userTier
    item_1_sum := dictGetD userData "item_1_sum" .pnone
    item_2_sum := dictGetD userData "item_2_sum" .pnone
    standard_excess := dictGetD userData "standard_excess" .pnone
    extra_excess := dictGetD userData "extra_excess" .pnone
    add_ons := dictGetD userData "add_ons" .pnone
    special_conditions := dictGetD userData "special_conditions" .pnone
    tier_limits := (tierLimits.getD .pnone)
    has_previous_interactions :=
      match history with
      | some h => dictGetD h "has_history" (.pbool false)
      | none => .pbool false
    total_previous_calls :=
      match history with
      | some h => dictGetD h "total_calls" (.pint 0)
      | none => .pint 0
    last_topic := match history with | some h => dictGetD h "last_topic" .pnone | none => .pnone
    last_interaction_date :=
      match history with
      | some h => dictGetD h "last_interaction_date" .pnone
      | none => .pnone
    unresolved_issues :=
      match history with
      | some h => dictGetD h "unresolved_issues" .pnone
      | none => .pnone
    sentiment_trend :=
      match history with
      | some h => dictGetD h "sentiment_trend" .pnone
      | none => .pnone
    conversation_summary :=
      match history with
      | some h => dictGetD h "summary" .pnone
      | none => .pnone
    summary := buildSummary userData (tierLimits.getD .pnone) (history.getD .pnone) }

/-- STEPs 2-4 of `ContextAgent._run_async_impl` as a function of STEP 1's
outcome (the final `user_data` and resolved id): the `if not user_data`
early exit, the limits and history retry loops, and the result
construction. The only statement that can raise here with data-shaped store
responses is `user_data.get("tier", "Standard")` at STEP 2, when the
extracted `customer` value is truthy but not a dict. -/
def resolveContextFrom (step1 : Option PyVal × PyVal) (st : StoreOracles) :
    Except PyError ContextResult :=
  if pyTruthy (step1.1.getD .pnone) then
    match pyGetE (step1.1.getD .pnone) "tier" (.pstr "Standard") with
    | .error e => .error e
    | .ok userTier =>
      .ok (foundResult (step1.1.getD .pnone) step1.2 userTier
        (limitsLoop st.limits 0 MAX_RETRIES)
        (if pyTruthy step1.2 then historyLoop st.history 0 MAX_RETRIES else none))
  else .ok notFoundResult

/-- The whole `try` body of `ContextAgent._run_async_impl`: STEP 1 (the
`user_id` check and the profile retry loop) followed by
`resolveContextFrom`. `uid₀` is `ctx.session.state.get("user_id", "")`. -/
def resolveContextE (uid₀ : PyVal) (st : StoreOracles) : Except PyError ContextResult :=
  resolveContextFrom
    (if pyTruthy uid₀ then profileLoop st.profile 0 MAX_RETRIES uid₀ none else (none, uid₀)) st

/-- `ContextAgent._run_async_impl` with its outermost `try`/`except`: every
raise degrades to the `errorResult` fallback, so the resolver is total. -/
def resolveContext (uid₀ : PyVal) (st : StoreOracles) : ContextResult :=
  match resolveContextE uid₀ st with
  | .ok r => r
  | .error e => errorResult e

/-- The session-state value stored by `_safe_store_result`
(`result.model_dump_json()`), read back through `json.loads` by the
orchestrator: the round trip yields the dictionary of the result's fields,
modelled directly. -/
def contextToDict (r : ContextResult) : List (String × PyVal) :=
  [("user_found", .pbool r.user_found),
   ("user_id", r.user_id),
   ("user_name", r.user_name),
   ("user_tier", r.user_tier),
   ("item_1_sum", r.item_1_sum),
   ("item_2_sum", r.item_2_sum),
   ("standard_excess", r.standard_excess),
   ("extra_excess", r.extra_excess),
   ("add_ons", r.add_ons),
   ("special_conditions", r.special_conditions),
   ("tier_limits", r.tier_limits),
   ("has_previous_interactions", r.has_previous_interactions),
   ("total_previous_calls", r.total_previous_calls),
   ("last_topic", r.last_topic),
   ("last_interaction_date", r.last_interaction_date),
   ("unresolved_issues", r.unresolved_issues),
   ("sentiment_trend", r.sentiment_trend),
   ("conversation_summary", r.conversation_summary),
   ("summary", .pstr r.summary)]

/-! ## `app/utils/response_templates.py` -/

/-- `ResponseTemplate` dataclass. -/
structure ResponseTemplate where
  messages : List String
  follow_up : Option String := none
  tone : String := "neutral"
deriving DecidableEq

/-- `ResponseTemplate.get_message`: with variation enabled and more than one
message, `random.choice` picks some message; the choice is modelled by a
caller-supplied index taken modulo the number of variations, which reaches
exactly the values `random.choice` can produce. -/
def ResponseTemplate.getMessage (t : ResponseTemplate) (useVariation : Bool) (choice : Nat) : String :=
  if useVariation ∧ 1 < t.messages.length then t.messages.getD (choice % t.messages.length) ""
  else t.messages.headD ""

/-- `ResponseTemplates.BLOCKED["out_of_scope"]`. -/
def BLOCKED_out_of_scope : ResponseTemplate :=
  { messages :=
      ["I\x27m your assistant, so I can help with questions about your account, services, and support. Is there something I can help with?",
       "I specialize in account questions. I\x27d be happy to help with your account details, or support process. What would you like to know?"]
    follow_up := some "How can I assist you today?"
    tone := "friendly_redirect" }

/-- `ResponseTemplates.BLOCKED["security_risk"]`. -/
def BLOCKED_security_risk : ResponseTemplate :=
  { messages :=
      ["I\x27m sorry, I wasn\x27t able to process that request. How can I help you today?"]
    tone := "neutral" }

/-- `ResponseTemplates.BLOCKED["default"]`. -/
def BLOCKED_default : ResponseTemplate :=
  { messages :=
      ["I\x27m not able to help with that particular request, but I\x27m happy to answer questions about your account. What would you like to know?"]
    tone := "polite" }

/-- `ResponseTemplates.GREETING`. -/
def GREETING : ResponseTemplate :=
  { messages :=
      ["Hello! I\x27m your assistant. I\x27m here to help with questions about your account, services, and support.",
       "Hi there! Welcome. I\x27m here to help you with any questions about your account.",
       "Good day! I\x27m your assistant, ready to help with your account questions."]
    follow_up := some "How can I help you today?" }

/-- `ResponseTemplates.THANKS`. -/
def THANKS : ResponseTemplate :=
  { messages :=
      ["You\x27re welcome! Is there anything else I can help you with regarding your account?",
       "My pleasure! Feel free to ask if you have any other questions about your account."] }

/-- `ResponseTemplates.GOODBYE`. -/
def GOODBYE : ResponseTemplate :=
  { messages :=
      ["Thank you for calling. Take care, and don\x27t hesitate to call back if you have any more questions. Goodbye!",
       "Thanks for reaching out. Have a great day, and feel free to reach out anytime. Goodbye!"] }

/-- `ResponseTemplates.ESCALATION["urgent_legal"]`. -/
def ESCALATION_urgent_legal : ResponseTemplate :=
  { messages :=
      ["I understand this is an important matter. Let me connect you with a senior member of our team who can properly address your concerns and ensure they\x27re handled with the attention they deserve. Please hold for just a moment."]
    tone := "empathetic_professional" }

/-- `ResponseTemplates.ESCALATION["frustrated"]`. -/
def ESCALATION_frustrated : ResponseTemplate :=
  { messages :=
      ["I can hear this has been frustrating, and I\x27m sorry for that experience. Let me connect you with a specialist who can give this their full attention and work to resolve this for you. Please hold.",
       "I understand your frustration, and I want to make sure we get this resolved properly. Let me transfer you to a colleague who can give this the attention it deserves. One moment please."]
    tone := "empathetic" }

/-- `ResponseTemplates.ESCALATION["default"]`. -/
def ESCALATION_default : ResponseTemplate :=
  { messages :=
      ["This is an important query that deserves specialist attention. Let me transfer you to a colleague who can help. Please hold for just a moment."]
    tone := "professional" }

/-- `ResponseTemplates.get_blocked_message`:
`BLOCKED.get(category, BLOCKED["default"])`. The category comes from a
dynamically typed dict lookup, so a non-string category selects the
default. -/
def getBlockedMessage (category : PyVal) : ResponseTemplate :=
  if pyIsStr category "out_of_scope" then BLOCKED_out_of_scope
  else if pyIsStr category "security_risk" then BLOCKED_security_risk
  else BLOCKED_default

/-- `ResponseTemplates.get_greeting_message`. -/
def getGreetingMessage (category : PyVal) : ResponseTemplate :=
  if pyIsStr category "greeting" then GREETING
  else if pyIsStr category "thanks" then THANKS
  else if pyIsStr category "goodbye" then GOODBYE
  else GREETING

/-- `ResponseTemplates.get_escalation_message`: `urgent_legal` beats any
sentiment, a `frustrated` sentiment beats the generic default. -/
def getEscalationMessage (category sentiment : PyVal) : ResponseTemplate :=
  if pyIsStr category "urgent_legal" then ESCALATION_urgent_legal
  else if pyIsStr sentiment "frustrated" then ESCALATION_frustrated
  else ESCALATION_default

/-! ## `app/agents/agent.py` -/

/-- The `final_response` payload written by
`ResponseHandler.create_final_state` (the JSON encoding of the dict is
modelled as the record itself). -/
structure FinalState where
  decision : String
  speech_text : String
  should_escalate : Bool
  escalation_reason : PyVal := .pnone
  follow_up_prompt : Option String := none

/-- One pipeline stage invoked by the orchestrator after guardrails:
the deterministic context agent, the RAG/search capability, the response
agent (with its personalization flag) and the write agent
(PersistenceStage). -/
inductive StageRun where
  | ctxStage
  | ragStage
  | responseStage (personalize : Bool)
  | writeStage
deriving DecidableEq, BEq

/-- An assignment to the session-state key `final_response`: either the
structured payload of `create_final_state`, or the raw text the response
agent stores through its `output_key`. -/
inductive FinalResponseVal where
  | structured (f : FinalState)
  | modelText (s : String)

/-- What one orchestrated turn did after guardrails: the stages it invoked,
in order, and every assignment to `final_response`. -/
structure TurnOutcome where
  stages : List StageRun
  finals : List FinalResponseVal

/-- Environment of one orchestrator run: the guardrails value found in
session state (`raw`), the `json.loads` behaviour (`loads`), the value of
the session-state key `user_id` before the turn (`stateUserId` — the
webhook server populates `customer_id`, `caller_name` and `session_id`,
not `user_id`), the store oracles for the context agent, the response
agent's output text, and the `random.choice` indices for the three
template-based handlers. -/
structure OEnv where
  loads : String → Option PyVal
  raw : PyVal
  stateUserId : Option PyVal
  stores : StoreOracles
  responseText : String
  blockedChoice : Nat
  escChoice : Nat
  greetChoice : Nat

/-- The defaulted Decision `_parse_guardrails_result` returns when
`json.loads` fails. -/
def guardrailsDefault : List (String × PyVal) :=
  [("action", .pstr "escalate"),
   ("category", .pstr "out_of_scope"),
   ("is_authenticated", .pbool false)]

/-- `Orchestrator._parse_guardrails_result`: a dict is returned as is;
anything else is passed through `json.loads(str(raw))`, whose result is
returned unchanged whatever its type; only a `json.JSONDecodeError`
(`loads` returning `none`) produces the defaulted escalate Decision. -/
def parseGuardrailsResult (loads : String → Option PyVal) (raw : PyVal) : PyVal :=
  match raw with
  | .pdict d => .pdict d
  | other =>
    match loads (pyToString other) with
    | some v => v
    | none => .pdict guardrailsDefault

/-- `Orchestrator._handle_blocked_route`: block template by category,
`create_final_state(decision="respond", ..., should_escalate=False,
follow_up_prompt=template.follow_up)`. -/
def handleBlockedRoute (choice : Nat) (category : PyVal) : FinalState :=
  let template := getBlockedMessage category
  let message := template.getMessage true choice
  { decision := "respond"
    speech_text := message
    should_escalate := false
    follow_up_prompt := template.follow_up }

/-- `Orchestrator._handle_escalation`: sentiment read with default
"neutral", escalation template by `(category, sentiment)`,
`create_final_state(decision="escalate", ..., should_escalate=True,
escalation_reason=guardrails_result.get("reason"))`. -/
def handleEscalation (choice : Nat) (category : PyVal)
    (d : List (String × PyVal)) : FinalState :=
  let sentiment := dictGet d "sentiment" (.pstr "neutral")
  let template := getEscalationMessage category sentiment
  let message := template.getMessage true choice
  { decision := "escalate"
    speech_text := message
    should_escalate := true
    escalation_reason := dictGet d "reason" .pnone }

/-- `Orchestrator._handle_simple_response` for greeting/thanks/goodbye. -/
def handleSimpleResponse (choice : Nat) (category : PyVal) : FinalState :=
  let template := getGreetingMessage category
  let message := template.getMessage true choice
  { decision := "respond"
    speech_text := message
    should_escalate := false
    follow_up_prompt := if pyIsStr category "greeting" then template.follow_up else none }

/-- `Orchestrator._guest_flow`: RAG, response agent without personalization
(one `final_response` assignment through its output key), then the write
agent. -/
def guestFlow (env : OEnv) : TurnOutcome :=
  { stages := [.ragStage, .responseStage false, .writeStage]
    finals := [.modelText env.responseText] }

/-- `Orchestrator._authenticated_flow`: the guardrails `customer_id` (a key
the guardrails schema never emits — it emits `user_id`) is stored under the
session key `customer_id`, which the context agent never reads; the context
agent resolves from the session key `user_id`, stores its result, and the
orchestrator then reads `customer_found` (a key `ContextResult` never
contains — it stores `user_found`) to decide between staying authenticated
and falling back to the guest flow. -/
def authenticatedFlow (env : OEnv) (d : List (String × PyVal)) : TurnOutcome :=
  let _customerId := dictGet d "customer_id" .pnone
  let uid := env.stateUserId.getD (.pstr "")
  let res := resolveContext uid env.stores
  let cdict := contextToDict res
  let found := pyTruthy (dictGet cdict "customer_found" (.pbool false))
  if found then
    { stages := [.ctxStage, .ragStage, .responseStage true, .writeStage]
      finals := [.modelText env.responseText] }
  else
    let g := guestFlow env
    { stages := .ctxStage :: g.stages, finals := g.finals }

/-- The routing of `Orchestrator._run_async_impl` on a successfully parsed
guardrails dict, in source order: block, escalate, simple reply,
authenticated, guest. -/
def routeDict (env : OEnv) (d : List (String × PyVal)) : TurnOutcome :=
  let action := dictGet d "action" (.pstr "allow")
  let category := dictGet d "category" (.pstr "other")
  let isAuth := dictGet d "is_authenticated" (.pbool false)
  if pyIsStr action "block" then
    { stages := [], finals := [.structured (handleBlockedRoute env.blockedChoice category)] }
  else if pyIsStr action "escalate" then
    { stages := [], finals := [.structured (handleEscalation env.escChoice category d)] }
  else if pyIsStr category "greeting" || pyIsStr category "thanks" || pyIsStr category "goodbye" then
    { stages := [], finals := [.structured (handleSimpleResponse env.greetChoice category)] }
  else if pyTruthy isAuth then authenticatedFlow env d
  else guestFlow env

/-- `Orchestrator._run_async_impl` from the guardrails parse onwards: when
the parse yields a non-dict, the very first attribute access
`guardrails_result.get("action", "allow")` raises and the turn aborts. -/
def runOrchestrator (env : OEnv) : Except PyError TurnOutcome :=
  match parseGuardrailsResult env.loads env.raw with
  | .pdict d => .ok (routeDict env d)
  | _ => .error .attributeError

/-- The three short-circuit conditions of the router, as read off the
parsed guardrails dict. -/
def shortCircuit (d : List (String × PyVal)) : Bool :=
  let action := dictGet d "action" (.pstr "allow")
  let category := dictGet d "category" (.pstr "other")
  pyIsStr action "block" || pyIsStr action "escalate" ||
    (pyIsStr category "greeting" || pyIsStr category "thanks" || pyIsStr category "goodbye")

/-! ## Shared helper lemmas -/

/-- Any message `get_message` produces is one of the template's variations. -/
theorem getMessage_mem (t : ResponseTemplate) (h : t.messages ≠ []) (uv : Bool) (choice : Nat) :
    t.getMessage uv choice ∈ t.messages := by
  unfold ResponseTemplate.getMessage
  split
  · next hc =>
    have hlt : choice % t.messages.length < t.messages.length :=
      Nat.mod_lt _ (by omega)
    rw [List.getD_eq_getElem t.messages "" hlt]
    exact List.getElem_mem hlt
  · cases hm : t.messages with
    | nil => exact absurd hm h
    | cons a l => simp [hm]

/-- Every block template has at least one message. -/
theorem getBlockedMessage_ne_nil (category : PyVal) :
    (getBlockedMessage category).messages ≠ [] := by
  unfold getBlockedMessage
  split
  · simp [BLOCKED_out_of_scope]
  · split
    · simp [BLOCKED_security_risk]
    · simp [BLOCKED_default]

/-- Every escalation template has at least one message. -/
theorem getEscalationMessage_ne_nil (category sentiment : PyVal) :
    (getEscalationMessage category sentiment).messages ≠ [] := by
  unfold getEscalationMessage
  split
  · simp [ESCALATION_urgent_legal]
  · split
    · simp [ESCALATION_frustrated]
    · simp [ESCALATION_default]

/-- The context result dictionary stored by the context agent has no
`customer_found` entry (it stores `user_found`), so the orchestrator's
`customer_context.get("customer_found", False)` always yields `False`. -/
theorem contextToDict_customer_found (r : ContextResult) :
    dictGet (contextToDict r) "customer_found" (.pbool false) = .pbool false := rfl

/-- The authenticated flow therefore always takes the guest fallback. -/
theorem authenticatedFlow_falls_back (env : OEnv) (d : List (String × PyVal)) :
    authenticatedFlow env d =
      { stages := [.ctxStage, .ragStage, .responseStage false, .writeStage]
        finals := [.modelText env.responseText] } := by
  unfold authenticatedFlow
  dsimp only []
  rw [contextToDict_customer_found]
  simp [pyTruthy, guestFlow]

/-- A value equal to one string literal is not equal to a different one. -/
theorem pyIsStr_ne (v : PyVal) (a b : String) (h : pyIsStr v a = true) (hne : a ≠ b) :
    pyIsStr v b = false := by
  cases v <;> try rfl
  next t =>
    simp only [pyIsStr, beq_iff_eq] at h ⊢
    subst h
    exact beq_eq_false_iff_ne.mpr hne

/-- `resolveContextFrom` can only succeed with the not-found result or with
a result whose `user_found` is `true`. -/
theorem resolveContextFrom_ok (step1 : Option PyVal × PyVal) (st : StoreOracles)
    (r : ContextResult) (h : resolveContextFrom step1 st = .ok r) :
    r = notFoundResult ∨ r.user_found = true := by
  unfold resolveContextFrom at h
  split at h
  · split at h
    · exact Except.noConfusion h
    · cases h
      right
      rfl
  · cases h
    left
    rfl

/-- The same for `resolveContextE`. -/
theorem resolveContextE_ok (uid : PyVal) (st : StoreOracles) (r : ContextResult)
    (h : resolveContextE uid st = .ok r) :
    r = notFoundResult ∨ r.user_found = true :=
  resolveContextFrom_ok _ st r h

/-! ## Claim theorems -/

/-- The scores of the most recent five interactions (oldest first), as the
spec describes them. -/
def lastFiveScores (l : List Interaction) : List Int :=
  (l.drop (l.length - 5)).map (fun i => sentimentScore i.sentiment)

/-- The spec's characterisation of the trend of a score list: "improving"
exactly when the second-half sum exceeds the first-half sum by more than 1,
"declining" exactly when it is smaller by more than 1, "stable" otherwise. -/
def specTrend (scores : List Int) : String :=
  if (scores.take (scores.length / 2)).sum + 1 < (scores.drop (scores.length / 2)).sum then
    "improving"
  else if (scores.drop (scores.length / 2)).sum < (scores.take (scores.length / 2)).sum - 1 then
    "declining"
  else "stable"

/-- C6: sentiment-trend derivation returns "unknown" for fewer than 2
interactions; otherwise it scores the most recent 5 sentiments
(positive=2, neutral=1, negative=-1, frustrated=-2) and, when at least 3
samples exist (equivalently, at least 3 interactions), returns "improving"
exactly when the second-half sum exceeds the first-half sum by more than 1,
"declining" exactly when it is smaller by more than 1, and "stable"
otherwise. -/
theorem C6_sentiment_trend (l : List Interaction) :
    (l.length < 2 → calculateSentimentTrend l = "unknown") ∧
    (3 ≤ l.length → calculateSentimentTrend l = specTrend (lastFiveScores l)) := by
  constructor
  · intro h
    simp [calculateSentimentTrend, h]
  · intro h
    have h2 : ¬ l.length < 2 := by omega
    have h3 : 3 ≤ ((l.drop (l.length - 5)).map (fun i => sentimentScore i.sentiment)).length := by
      simp only [List.length_map, List.length_drop]
      omega
    simp only [calculateSentimentTrend, if_neg h2, if_pos h3]
    rfl

/-- A concrete interaction, used by witnesses. -/
def exInter (s : String) : Interaction :=
  { timestamp := "2026-01-01T00:00:00+00:00"
    session_id := "sess-1"
    query := "What is my limit?"
    response := "Your limit is 5000."
    topic := "user_question"
    sentiment := s
    was_escalated := false
    escalation_reason := none
    resolution_status := "resolved" }

/-- Five concrete interactions whose trend is "improving". -/
def exInteractions : List Interaction :=
  [exInter "frustrated", exInter "frustrated", exInter "positive",
   exInter "positive", exInter "positive"]

/-- Witness for C6 at the empty history and at a concrete 5-interaction
history. -/
theorem C6_sentiment_trend_witness :
    calculateSentimentTrend [] = "unknown" ∧
    (3 ≤ exInteractions.length ∧
      calculateSentimentTrend exInteractions = specTrend (lastFiveScores exInteractions)) :=
  ⟨(C6_sentiment_trend []).1 (by decide), by decide,
   (C6_sentiment_trend exInteractions).2 (by decide)⟩

/-- C7: appending an interaction truncates the query to 500 characters and
the response to 1000, and appending a 21st record to a customer holding 20
records leaves exactly 20 records, the oldest removed and the others
preserved in order. -/
theorem C7_history_eviction (d : HistoryDoc) (hd : d.interactions.length = 20)
    (now uid sid q r topic sent : String) (we : Bool) (er : Option String) (rs : String) :
    (saveConversation now (some d) uid sid q r topic sent we er rs).interactions
      = d.interactions.drop 1 ++ [mkInteraction now sid q r topic sent we er rs] ∧
    (saveConversation now (some d) uid sid q r topic sent we er rs).interactions.length = 20 ∧
    (mkInteraction now sid q r topic sent we er rs).query = q.take 500 ∧
    (mkInteraction now sid q r topic sent we er rs).response = r.take 1000 := by
  have hlen : (d.interactions ++ [mkInteraction now sid q r topic sent we er rs]).length = 21 := by
    simp [hd]
  have hcond : MAX_STORED_INTERACTIONS
      < (d.interactions ++ [mkInteraction now sid q r topic sent we er rs]).length := by
    rw [hlen]
    norm_num [MAX_STORED_INTERACTIONS]
  have hmain : (saveConversation now (some d) uid sid q r topic sent we er rs).interactions
      = d.interactions.drop 1 ++ [mkInteraction now sid q r topic sent we er rs] := by
    unfold saveConversation
    dsimp only []
    rw [if_pos hcond]
    have h1 : (d.interactions ++ [mkInteraction now sid q r topic sent we er rs]).length
        - MAX_STORED_INTERACTIONS = 1 := by
      rw [hlen]
      norm_num [MAX_STORED_INTERACTIONS]
    rw [h1]
    exact List.drop_append_of_le_length (by omega)
  refine ⟨hmain, ?_, by simp [mkInteraction], by simp [mkInteraction]⟩
  rw [hmain]
  simp [hd]

/-- A concrete document holding exactly 20 interactions. -/
def doc20 : HistoryDoc :=
  { user_id := "USER-001"
    created_at := "2026-01-01T00:00:00+00:00"
    last_updated := "2026-01-01T00:00:00+00:00"
    interactions := List.replicate 20 (exInter "neutral")
    unresolved_issues := []
    total_interactions := 20 }

/-- Witness for C7 at a concrete full document. -/
theorem C7_history_eviction_witness :
    (saveConversation "now" (some doc20) "USER-001" "sess-2" "q21" "r21" "billing" "neutral"
        false none "resolved").interactions
      = doc20.interactions.drop 1
        ++ [mkInteraction "now" "sess-2" "q21" "r21" "billing" "neutral" false none "resolved"] ∧
    (saveConversation "now" (some doc20) "USER-001" "sess-2" "q21" "r21" "billing" "neutral"
        false none "resolved").interactions.length = 20 ∧
    (mkInteraction "now" "sess-2" "q21" "r21" "billing" "neutral" false none "resolved").query
      = String.take "q21" 500 ∧
    (mkInteraction "now" "sess-2" "q21" "r21" "billing" "neutral" false none "resolved").response
      = String.take "r21" 1000 :=
  C7_history_eviction doc20 (by decide) "now" "USER-001" "sess-2" "q21" "r21" "billing"
    "neutral" false none "resolved"

/-- C9: the context resolver is a pure function of the queried id and the
store responses: two runs over identical store state yield identical
`ContextResult` values, including the generated summary string. -/
theorem C9_resolver_deterministic (u₁ u₂ : PyVal) (s₁ s₂ : StoreOracles)
    (hu : u₁ = u₂)
    (hp : ∀ n, s₁.profile n = s₂.profile n)
    (hl : ∀ n, s₁.limits n = s₂.limits n)
    (hh : ∀ n, s₁.history n = s₂.history n) :
    resolveContext u₁ s₁ = resolveContext u₂ s₂ ∧
    (resolveContext u₁ s₁).summary = (resolveContext u₂ s₂).summary := by
  obtain ⟨p₁, l₁, q₁⟩ := s₁
  obtain ⟨p₂, l₂, q₂⟩ := s₂
  have e₁ : p₁ = p₂ := funext hp
  have e₂ : l₁ = l₂ := funext hl
  have e₃ : q₁ = q₂ := funext hh
  subst hu e₁ e₂ e₃
  exact ⟨rfl, rfl⟩

/-- Stores whose every fetch raises on every attempt. -/
def failStores : StoreOracles :=
  { profile := fun _ => .raised
    limits := fun _ => .raised
    history := fun _ => .raised }

/-- Witness for C9 at a concrete id and store state. -/
theorem C9_resolver_deterministic_witness :
    resolveContext (.pstr "C-1") failStores = resolveContext (.pstr "C-1") failStores ∧
    (resolveContext (.pstr "C-1") failStores).summary
      = (resolveContext (.pstr "C-1") failStores).summary :=
  C9_resolver_deterministic _ _ failStores failStores rfl
    (fun _ => rfl) (fun _ => rfl) (fun _ => rfl)

/-- C3 (amended): the context resolver is total by construction
(`resolveContext` catches every modelled raise), and whenever the returned
context has `user_found = false`, every profile, limits and history field
keeps its unset default, and the summary is either the not-found message or
the error-report message of the outermost exception handler — never
customer data. -/
theorem C3_found_false_fields_absent (uid : PyVal) (st : StoreOracles)
    (h : (resolveContext uid st).user_found = false) :
    (resolveContext uid st).user_id = .pnone ∧
    (resolveContext uid st).user_name = .pnone ∧
    (resolveContext uid st).user_tier = .pnone ∧
    (resolveContext uid st).item_1_sum = .pnone ∧
    (resolveContext uid st).item_2_sum = .pnone ∧
    (resolveContext uid st).standard_excess = .pnone ∧
    (resolveContext uid st).extra_excess = .pnone ∧
    (resolveContext uid st).add_ons = .pnone ∧
    (resolveContext uid st).special_conditions = .pnone ∧
    (resolveContext uid st).tier_limits = .pnone ∧
    (resolveContext uid st).has_previous_interactions = .pbool false ∧
    (resolveContext uid st).total_previous_calls = .pint 0 ∧
    (resolveContext uid st).last_topic = .pnone ∧
    (resolveContext uid st).last_interaction_date = .pnone ∧
    (resolveContext uid st).unresolved_issues = .pnone ∧
    (resolveContext uid st).sentiment_trend = .pnone ∧
    (resolveContext uid st).conversation_summary = .pnone ∧
    ((resolveContext uid st).summary = "User not found in database" ∨
      ∃ e : PyError, (resolveContext uid st).summary
        = "Error fetching user context: " ++ (pyErrStr e).take 100) := by
  unfold resolveContext at h ⊢
  cases hE : resolveContextE uid st with
  | error e =>
    exact ⟨rfl, rfl, rfl, rfl, rfl, rfl, rfl, rfl, rfl, rfl, rfl, rfl, rfl, rfl, rfl, rfl, rfl,
      Or.inr ⟨e, rfl⟩⟩
  | ok r =>
    rw [hE] at h
    have h' : r.user_found = false := h
    rcases resolveContextE_ok uid st r hE with hnf | hf
    · subst hnf
      exact ⟨rfl, rfl, rfl, rfl, rfl, rfl, rfl, rfl, rfl, rfl, rfl, rfl, rfl, rfl, rfl, rfl, rfl,
        Or.inl rfl⟩
    · rw [hf] at h'
      exact absurd h' (by simp)

/-- Witness for C3 at an id that is present but whose profile fetch raises
on every attempt. -/
theorem C3_found_false_fields_absent_witness :
    (resolveContext (.pstr "C-1") failStores).user_id = .pnone ∧
    (resolveContext (.pstr "C-1") failStores).user_name = .pnone ∧
    (resolveContext (.pstr "C-1") failStores).user_tier = .pnone ∧
    (resolveContext (.pstr "C-1") failStores).item_1_sum = .pnone ∧
    (resolveContext (.pstr "C-1") failStores).item_2_sum = .pnone ∧
    (resolveContext (.pstr "C-1") failStores).standard_excess = .pnone ∧
    (resolveContext (.pstr "C-1") failStores).extra_excess = .pnone ∧
    (resolveContext (.pstr "C-1") failStores).add_ons = .pnone ∧
    (resolveContext (.pstr "C-1") failStores).special_conditions = .pnone ∧
    (resolveContext (.pstr "C-1") failStores).tier_limits = .pnone ∧
    (resolveContext (.pstr "C-1") failStores).has_previous_interactions = .pbool false ∧
    (resolveContext (.pstr "C-1") failStores).total_previous_calls = .pint 0 ∧
    (resolveContext (.pstr "C-1") failStores).last_topic = .pnone ∧
    (resolveContext (.pstr "C-1") failStores).last_interaction_date = .pnone ∧
    (resolveContext (.pstr "C-1") failStores).unresolved_issues = .pnone ∧
    (resolveContext (.pstr "C-1") failStores).sentiment_trend = .pnone ∧
    (resolveContext (.pstr "C-1") failStores).conversation_summary = .pnone ∧
    ((resolveContext (.pstr "C-1") failStores).summary = "User not found in database" ∨
      ∃ e : PyError, (resolveContext (.pstr "C-1") failStores).summary
        = "Error fetching user context: " ++ (pyErrStr e).take 100) :=
  C3_found_false_fields_absent (.pstr "C-1") failStores rfl

/-- Stores whose profile fetch reports success but carries a non-dict
`customer` value. -/
def corruptStores : StoreOracles :=
  { profile := fun _ => .returned (.pdict [("success", .pbool true), ("customer", .pstr "corrupt")])
    limits := fun _ => .raised
    history := fun _ => .raised }

/-- Whether the first list of characters starts with the second. -/
def charsStartWith : List Char → List Char → Bool
  | _, [] => true
  | [], _ :: _ => false
  | a :: as, b :: bs => a == b && charsStartWith as bs

/-- Whether the first list of characters contains the second as a contiguous
run. -/
def charsContain : List Char → List Char → Bool
  | [], pat => pat.isEmpty
  | a :: rest, pat => charsStartWith (a :: rest) pat || charsContain rest pat

set_option maxRecDepth 40000 in
/-- Counterexample to C3 as stated: a store response whose `customer` field
is a truthy non-dict makes `user_data.get("tier", "Standard")` raise, so the
outermost handler returns `user_found = false` with an error summary that
does not state that the customer was not found (the summary has no
occurrence of "not found"). -/
theorem C3_error_summary_counterexample :
    (resolveContext (.pstr "C-9") corruptStores).user_found = false ∧
    (resolveContext (.pstr "C-9") corruptStores).summary
      = "Error fetching user context: object has no attribute \x27get\x27" ∧
    charsContain (resolveContext (.pstr "C-9") corruptStores).summary.data
      "not found".data = false := by
  have hs : (resolveContext (.pstr "C-9") corruptStores).summary
      = "Error fetching user context: object has no attribute \x27get\x27" := rfl
  refine ⟨rfl, hs, ?_⟩
  rw [hs]
  decide

/-- Shape of every routed turn: exactly one `final_response` assignment, and
the write agent (PersistenceStage) runs once on the authenticated and guest
flows and not at all on the three short-circuit routes. -/
theorem routeDict_shape (env : OEnv) (d : List (String × PyVal)) :
    (routeDict env d).finals.length = 1 ∧
    (routeDict env d).stages.count .writeStage = (if shortCircuit d then 0 else 1) := by
  unfold routeDict
  dsimp only []
  split
  · next h1 =>
    exact ⟨rfl, by simp [shortCircuit, h1]⟩
  · next h1 =>
    split
    · next h2 =>
      exact ⟨rfl, by simp [shortCircuit, h2]⟩
    · next h2 =>
      split
      · next h3 =>
        exact ⟨rfl, by simp [shortCircuit, h3]⟩
      · next h3 =>
        have hsc : shortCircuit d = false := by
          simp only [Bool.not_eq_true] at h1 h2 h3
          simp [shortCircuit, h1, h2, h3]
        split
        · rw [authenticatedFlow_falls_back]
          refine ⟨rfl, ?_⟩
          rw [hsc]
          rfl
        · refine ⟨rfl, ?_⟩
          rw [hsc]
          rfl

/-- C2 (amended): for every turn whose guardrails value parses to a dict,
exactly one `finalResponse` is produced; PersistenceStage runs exactly once
on the authenticated and guest flows (including the not-found fallback) and
zero times on the blocked/escalated/simple-reply short-circuits, so
telemetry is not attempted there. -/
theorem C2_routes_single_final (env : OEnv) (d : List (String × PyVal))
    (hparse : parseGuardrailsResult env.loads env.raw = .pdict d) :
    ∃ out, runOrchestrator env = .ok out ∧ out.finals.length = 1 ∧
      out.stages.count .writeStage = (if shortCircuit d then 0 else 1) := by
  refine ⟨routeDict env d, ?_, (routeDict_shape env d).1, (routeDict_shape env d).2⟩
  unfold runOrchestrator
  rw [hparse]

/-- An environment whose guardrails Decision is `action=block`. -/
def envBlockedTurn : OEnv :=
  { loads := fun _ => none
    raw := .pdict [("action", .pstr "block"), ("category", .pstr "security_risk")]
    stateUserId := none
    stores := failStores
    responseText := "unused"
    blockedChoice := 0
    escChoice := 0
    greetChoice := 0 }

/-- Counterexample to C2 as stated: on a blocked turn the orchestrator
returns before ever invoking the write agent, so PersistenceStage runs zero
times, not once, and no telemetry logging is attempted. -/
theorem C2_no_persistence_on_block :
    ∃ out, runOrchestrator envBlockedTurn = .ok out ∧
      out.stages.count .writeStage = 0 ∧ out.finals.length = 1 :=
  ⟨_, rfl, rfl, rfl⟩

/-- A guest-flow environment used by the C2 witness. -/
def envGuestTurn : OEnv :=
  { loads := fun _ => none
    raw := .pdict [("action", .pstr "allow"), ("category", .pstr "user_question"),
      ("is_authenticated", .pbool false)]
    stateUserId := none
    stores := failStores
    responseText := "Here is some general information."
    blockedChoice := 0
    escChoice := 0
    greetChoice := 0 }

/-- Witness for the amended C2 at a concrete guest turn. -/
theorem C2_routes_single_final_witness :
    ∃ out, runOrchestrator envGuestTurn = .ok out ∧ out.finals.length = 1 ∧
      out.stages.count .writeStage
        = (if shortCircuit [("action", .pstr "allow"), ("category", .pstr "user_question"),
            ("is_authenticated", .pbool false)] then 0 else 1) :=
  C2_routes_single_final envGuestTurn
    [("action", .pstr "allow"), ("category", .pstr "user_question"),
     ("is_authenticated", .pbool false)] rfl

/-- C4: every Decision with `action=block` yields the blocked route: one
structured final response with `should_escalate=false` whose message is one
of the block template's messages for the Decision's category (the generic
template when the category has no specific one), and neither the context
resolver nor the search capability is invoked. -/
theorem C4_blocked_route (env : OEnv) (d : List (String × PyVal))
    (hparse : parseGuardrailsResult env.loads env.raw = .pdict d)
    (hblock : pyIsStr (dictGet d "action" (.pstr "allow")) "block" = true) :
    runOrchestrator env = .ok
      { stages := []
        finals := [.structured (handleBlockedRoute env.blockedChoice
          (dictGet d "category" (.pstr "other")))] } ∧
    (handleBlockedRoute env.blockedChoice (dictGet d "category" (.pstr "other"))).should_escalate
      = false ∧
    (handleBlockedRoute env.blockedChoice (dictGet d "category" (.pstr "other"))).speech_text
      ∈ (getBlockedMessage (dictGet d "category" (.pstr "other"))).messages ∧
    (pyIsStr (dictGet d "category" (.pstr "other")) "out_of_scope" = false →
      pyIsStr (dictGet d "category" (.pstr "other")) "security_risk" = false →
      getBlockedMessage (dictGet d "category" (.pstr "other")) = BLOCKED_default) ∧
    ∀ out, runOrchestrator env = .ok out →
      StageRun.ctxStage ∉ out.stages ∧ StageRun.ragStage ∉ out.stages := by
  have hroute : runOrchestrator env = .ok
      { stages := []
        finals := [.structured (handleBlockedRoute env.blockedChoice
          (dictGet d "category" (.pstr "other")))] } := by
    unfold runOrchestrator
    rw [hparse]
    unfold routeDict
    dsimp only []
    rw [if_pos hblock]
  refine ⟨hroute, rfl, ?_, ?_, ?_⟩
  · exact getMessage_mem _ (getBlockedMessage_ne_nil _) true env.blockedChoice
  · intro h1 h2
    simp [getBlockedMessage, h1, h2]
  · intro out hout
    rw [hroute] at hout
    cases hout
    exact ⟨by simp, by simp⟩

/-- An environment whose Decision is a block with a category that has no
specific block template. -/
def envBlockedOther : OEnv :=
  { loads := fun _ => none
    raw := .pdict [("action", .pstr "block"), ("category", .pstr "claims_inquiry")]
    stateUserId := none
    stores := failStores
    responseText := "unused"
    blockedChoice := 0
    escChoice := 0
    greetChoice := 0 }

/-- Witness for C4 at a concrete blocked turn. -/
theorem C4_blocked_route_witness :
    runOrchestrator envBlockedOther = .ok
      { stages := []
        finals := [.structured (handleBlockedRoute 0 (.pstr "claims_inquiry"))] } ∧
    getBlockedMessage (.pstr "claims_inquiry") = BLOCKED_default :=
  ⟨(C4_blocked_route envBlockedOther
      [("action", .pstr "block"), ("category", .pstr "claims_inquiry")] rfl rfl).1,
   (C4_blocked_route envBlockedOther
      [("action", .pstr "block"), ("category", .pstr "claims_inquiry")] rfl rfl).2.2.2.1
      rfl rfl⟩

/-- C5: every Decision with `action=escalate` yields the escalated route:
one structured final response with `should_escalate=true`, whose message
comes from the escalation template chosen with `urgent_legal` beating any
sentiment, a `frustrated` sentiment beating the generic default, and the
generic template otherwise. -/
theorem C5_escalation_route (env : OEnv) (d : List (String × PyVal))
    (hparse : parseGuardrailsResult env.loads env.raw = .pdict d)
    (hesc : pyIsStr (dictGet d "action" (.pstr "allow")) "escalate" = true) :
    runOrchestrator env = .ok
      { stages := []
        finals := [.structured (handleEscalation env.escChoice
          (dictGet d "category" (.pstr "other")) d)] } ∧
    (handleEscalation env.escChoice (dictGet d "category" (.pstr "other")) d).should_escalate
      = true ∧
    (handleEscalation env.escChoice (dictGet d "category" (.pstr "other")) d).speech_text
      ∈ (getEscalationMessage (dictGet d "category" (.pstr "other"))
          (dictGet d "sentiment" (.pstr "neutral"))).messages ∧
    (pyIsStr (dictGet d "category" (.pstr "other")) "urgent_legal" = true →
      getEscalationMessage (dictGet d "category" (.pstr "other"))
        (dictGet d "sentiment" (.pstr "neutral")) = ESCALATION_urgent_legal) ∧
    (pyIsStr (dictGet d "category" (.pstr "other")) "urgent_legal" = false →
      pyIsStr (dictGet d "sentiment" (.pstr "neutral")) "frustrated" = true →
      getEscalationMessage (dictGet d "category" (.pstr "other"))
        (dictGet d "sentiment" (.pstr "neutral")) = ESCALATION_frustrated) ∧
    (pyIsStr (dictGet d "category" (.pstr "other")) "urgent_legal" = false →
      pyIsStr (dictGet d "sentiment" (.pstr "neutral")) "frustrated" = false →
      getEscalationMessage (dictGet d "category" (.pstr "other"))
        (dictGet d "sentiment" (.pstr "neutral")) = ESCALATION_default) := by
  have hnb : pyIsStr (dictGet d "action" (.pstr "allow")) "block" = false :=
    pyIsStr_ne _ "escalate" "block" hesc (by decide)
  have hroute : runOrchestrator env = .ok
      { stages := []
        finals := [.structured (handleEscalation env.escChoice
          (dictGet d "category" (.pstr "other")) d)] } := by
    unfold runOrchestrator
    rw [hparse]
    unfold routeDict
    dsimp only []
    rw [if_neg (by simp [hnb]), if_pos hesc]
  refine ⟨hroute, rfl, ?_, ?_, ?_, ?_⟩
  · exact getMessage_mem _ (getEscalationMessage_ne_nil _ _) true env.escChoice
  · intro h1
    simp [getEscalationMessage, h1]
  · intro h1 h2
    simp [getEscalationMessage, h1, h2]
  · intro h1 h2
    simp [getEscalationMessage, h1, h2]

/-- An environment whose Decision escalates a frustrated complaint. -/
def envEscalateFrustrated : OEnv :=
  { loads := fun _ => none
    raw := .pdict [("action", .pstr "escalate"), ("category", .pstr "complaint"),
      ("sentiment", .pstr "frustrated"), ("reason", .pstr "repeated failures")]
    stateUserId := none
    stores := failStores
    responseText := "unused"
    blockedChoice := 0
    escChoice := 0
    greetChoice := 0 }

/-- Witness for C5 at a concrete escalated turn with frustrated sentiment. -/
theorem C5_escalation_route_witness :
    runOrchestrator envEscalateFrustrated = .ok
      { stages := []
        finals := [.structured (handleEscalation 0 (.pstr "complaint")
          [("action", .pstr "escalate"), ("category", .pstr "complaint"),
           ("sentiment", .pstr "frustrated"), ("reason", .pstr "repeated failures")])] } ∧
    getEscalationMessage (.pstr "complaint") (.pstr "frustrated") = ESCALATION_frustrated :=
  ⟨(C5_escalation_route envEscalateFrustrated
      [("action", .pstr "escalate"), ("category", .pstr "complaint"),
       ("sentiment", .pstr "frustrated"), ("reason", .pstr "repeated failures")] rfl rfl).1,
   (C5_escalation_route envEscalateFrustrated
      [("action", .pstr "escalate"), ("category", .pstr "complaint"),
       ("sentiment", .pstr "frustrated"), ("reason", .pstr "repeated failures")] rfl rfl).2.2.2.2.1
      rfl rfl⟩

/-- C8: every classifier output string that `json.loads` cannot decode
produces the defaulted Decision `action=escalate, category=out_of_scope,
is_authenticated=False`, and the turn is routed to the escalation handler
(whose final response always has `should_escalate=true`), never to the
blocked route (whose final responses always have `should_escalate=false`). -/
theorem C8_undecodable_defaults_to_escalate (env : OEnv) (s : String)
    (hraw : env.raw = .pstr s) (hl : env.loads s = none) :
    parseGuardrailsResult env.loads env.raw = .pdict guardrailsDefault ∧
    runOrchestrator env = .ok
      { stages := []
        finals := [.structured (handleEscalation env.escChoice (.pstr "out_of_scope")
          guardrailsDefault)] } ∧
    (handleEscalation env.escChoice (.pstr "out_of_scope") guardrailsDefault).should_escalate
      = true ∧
    (handleEscalation env.escChoice (.pstr "out_of_scope") guardrailsDefault).decision
      = "escalate" ∧
    ∀ choice cat, (handleBlockedRoute choice cat).should_escalate = false := by
  have hparse : parseGuardrailsResult env.loads env.raw = .pdict guardrailsDefault := by
    rw [hraw]
    simp [parseGuardrailsResult, pyToString, hl]
  refine ⟨hparse, ?_, rfl, rfl, fun choice cat => rfl⟩
  unfold runOrchestrator
  rw [hparse]
  rfl

/-- A session-state value that is not decodable JSON. -/
def envUndecodable : OEnv :=
  { loads := fun _ => none
    raw := .pstr "***garbage***"
    stateUserId := none
    stores := failStores
    responseText := "unused"
    blockedChoice := 0
    escChoice := 0
    greetChoice := 0 }

/-- Witness for C8 at a concrete undecodable classifier output. -/
theorem C8_undecodable_defaults_to_escalate_witness :
    parseGuardrailsResult envUndecodable.loads envUndecodable.raw = .pdict guardrailsDefault ∧
    runOrchestrator envUndecodable = .ok
      { stages := []
        finals := [.structured (handleEscalation 0 (.pstr "out_of_scope")
          guardrailsDefault)] } :=
  ⟨(C8_undecodable_defaults_to_escalate envUndecodable "***garbage***" rfl rfl).1,
   (C8_undecodable_defaults_to_escalate envUndecodable "***garbage***" rfl rfl).2.1⟩

/-- C10: a session-state value that decodes as valid JSON but not as an
object is returned unchanged by `_parse_guardrails_result`, and the
orchestrator's subsequent `guardrails_result.get("action", "allow")` raises
instead of routing the turn. -/
theorem C10_nondict_parse_raises (env : OEnv)
    (hraw : env.raw = .pstr "[1, 2]")
    (hl : env.loads "[1, 2]" = some (.plist [.pint 1, .pint 2])) :
    parseGuardrailsResult env.loads env.raw = .plist [.pint 1, .pint 2] ∧
    runOrchestrator env = .error .attributeError := by
  have hparse : parseGuardrailsResult env.loads env.raw = .plist [.pint 1, .pint 2] := by
    rw [hraw]
    simp [parseGuardrailsResult, pyToString, hl]
  refine ⟨hparse, ?_⟩
  unfold runOrchestrator
  rw [hparse]

/-- A `json.loads` oracle decoding the non-object document "[1, 2]". -/
def loadsListDemo : String → Option PyVal :=
  fun t => if t == "[1, 2]" then some (.plist [.pint 1, .pint 2]) else none

/-- An environment whose guardrails session value is the string "[1, 2]". -/
def envNonObject : OEnv :=
  { loads := loadsListDemo
    raw := .pstr "[1, 2]"
    stateUserId := none
    stores := failStores
    responseText := "unused"
    blockedChoice := 0
    escChoice := 0
    greetChoice := 0 }

/-- Witness for C10 at the concrete input "[1, 2]". -/
theorem C10_nondict_parse_raises_witness :
    parseGuardrailsResult envNonObject.loads envNonObject.raw = .plist [.pint 1, .pint 2] ∧
    runOrchestrator envNonObject = .error .attributeError :=
  C10_nondict_parse_raises envNonObject rfl rfl

/-- Stores that successfully return a Premium customer record, its tier
limits, and an empty interaction history. -/
def premiumStores : StoreOracles :=
  { profile := fun _ => .returned (.pdict
      [("success", .pbool true),
       ("customer", .pdict
         [("name", .pstr "Alice"), ("tier", .pstr "Premium"), ("item_1_sum", .pint 5000)]),
       ("customer_id", .pstr "C-1")])
    limits := fun _ => .returned (.pdict
      [("success", .pbool true), ("limits", .pdict [("item_1_max", .pint 5000)])])
    history := fun _ => .returned (.pdict
      [("success", .pbool true), ("has_history", .pbool false), ("total_calls", .pint 0)]) }

/-- An authenticated allow Decision for customer C-1, with the session's
`user_id` even generously seeded so that the context agent can find the
record. -/
def envAuthPremium : OEnv :=
  { loads := fun _ => none
    raw := .pdict
      [("category", .pstr "user_question"), ("action", .pstr "allow"),
       ("sentiment", .pstr "neutral"), ("is_authenticated", .pbool true),
       ("user_id", .pstr "C-1"), ("caller_name", .pstr "Alice")]
    stateUserId := some (.pstr "C-1")
    stores := premiumStores
    responseText := "Your item 1 limit is 5000 dollars."
    blockedChoice := 0
    escChoice := 0
    greetChoice := 0 }

/-- C1 (code bug): on an authenticated allow turn whose profile store
successfully returns the customer's record, the context resolver does
return `user_found=true`, yet the orchestrator still takes the guest
fallback (response stage runs with `personalize=false` and the
personalized response stage never runs), because it reads the key
`customer_found` where the resolver stores `user_found`, and stores the id
under `customer_id` where the resolver reads `user_id`. -/
theorem C1_authenticated_demoted_to_guest :
    (resolveContext (.pstr "C-1") premiumStores).user_found = true ∧
    runOrchestrator envAuthPremium = .ok
      { stages := [.ctxStage, .ragStage, .responseStage false, .writeStage]
        finals := [.modelText envAuthPremium.responseText] } ∧
    ∀ out, runOrchestrator envAuthPremium = .ok out →
      StageRun.responseStage true ∉ out.stages := by
  have hrun : runOrchestrator envAuthPremium = .ok
      { stages := [.ctxStage, .ragStage, .responseStage false, .writeStage]
        finals := [.modelText envAuthPremium.responseText] } := rfl
  refine ⟨rfl, hrun, ?_⟩
  intro out hout
  rw [hrun] at hout
  cases hout
  simp
